import Mathlib

/-!
Verification development for the Hearitage evidence-verification pipeline.

The TypeScript sources are shallowly embedded: JavaScript strings become
`List Char` (`JSStr`), every function of `src/lib/factcheck/validator.ts`,
`src/lib/factcheck/orchestrator.ts` and the fact-check stage of
`src/app/api/recognize/route.ts` becomes a total Lean function with the
same name, and JavaScript numbers holding millisecond clock readings
become `Int` (exact integer arithmetic; `Math.floor(x * 0.9)` on a
nonnegative integer count x is modelled as `(9 * x) / 10`).

Character-level caveats of the embedding, noted once here: `toLowerCase`
is modelled on the ASCII and Cyrillic ranges the source's regexes name
(`a-z`, `A-Z`, `а-я`, `А-Я`, `ё`, `Ё`); the JavaScript `\s` class is
modelled by the common whitespace characters (space, tab, LF, CR, VT,
FF, NBSP).  All claims below are insensitive to exotic-Unicode corners
beyond these ranges.
-/

namespace Hearitage

/-- JavaScript strings are modelled as lists of characters. -/
abbrev JSStr := List Char

/-- `String.prototype.toLowerCase`, restricted to the character ranges the
source's regexes mention (ASCII `A-Z`, Cyrillic `А-Я` and `Ё`). -/
def jsToLower (c : Char) : Char :=
  if 'A' ≤ c ∧ c ≤ 'Z' then Char.ofNat (c.toNat + 32)
  else if 'А' ≤ c ∧ c ≤ 'Я' then Char.ofNat (c.toNat + 32)
  else if c = 'Ё' then 'ё'
  else c

/-- The JavaScript `\s` character class (common members). -/
def jsIsSpace (c : Char) : Bool :=
  c = ' ' ∨ c = '\t' ∨ c = '\n' ∨ c = '\r' ∨ c = '\x0b' ∨ c = '\x0c' ∨ c = ' '

/-- Left half of `String.prototype.trim`. -/
def trimLeft (l : JSStr) : JSStr := l.dropWhile jsIsSpace

/-- Right half of `String.prototype.trim`. -/
def trimRight (l : JSStr) : JSStr := (l.reverse.dropWhile jsIsSpace).reverse

/-- `String.prototype.trim`. -/
def trim (l : JSStr) : JSStr := trimRight (trimLeft l)

/-- State machine for `.replace(/\s+/g, " ")`: `inSpace` records whether the
previous character was whitespace (a run already emitted its single space). -/
def collapseGo (inSpace : Bool) : JSStr → JSStr
  | [] => []
  | c :: rest =>
    if jsIsSpace c then
      if inSpace then collapseGo true rest else ' ' :: collapseGo true rest
    else
      c :: collapseGo false rest

/-- `.replace(/\s+/g, " ")`: every maximal whitespace run becomes one space. -/
def collapse (l : JSStr) : JSStr := collapseGo false l

/-- validator.ts line 37, route.ts line 465: characters the normalizing
regexes keep.  After `toLowerCase` only the lowercase ranges matter. -/
def allowedNormChar (c : Char) : Bool :=
  ('a' ≤ c ∧ c ≤ 'z') ∨ ('0' ≤ c ∧ c ≤ '9') ∨ ('а' ≤ c ∧ c ≤ 'я') ∨ c = 'ё' ∨ jsIsSpace c

/-- validator.ts `normalize`: lowercase, strip to the allowed alphabet,
collapse whitespace, trim. -/
def normalize (value : JSStr) : JSStr :=
  trim (collapse ((value.map jsToLower).map (fun c => if allowedNormChar c then c else ' ')))

/-- `String.prototype.split(" ")`: split at every single space character. -/
def splitOnSpace : JSStr → List JSStr
  | [] => [[]]
  | c :: rest =>
    match splitOnSpace rest with
    | [] => [[c]]
    | h :: t => if c = ' ' then [] :: h :: t else (c :: h) :: t

/-- validator.ts `tokenize`: normalized words of length at least 4. -/
def tokenize (value : JSStr) : List JSStr :=
  (((splitOnSpace (normalize value)).map trim).filter (fun token => 4 ≤ token.length))

/-- Sentence punctuation of the split regex `(?<=[.!?])\s+`. -/
def isSentencePunct (c : Char) : Bool := c = '.' ∨ c = '!' ∨ c = '?'

/-- State machine for `split(/(?<=[.!?])\s+/)`: a whitespace run starting
right after `.`, `!` or `?` separates segments and is consumed whole.
`prevPunct` records whether the previous character was such punctuation,
`inSep` whether we are inside a separator run, `acc` the reversed current
segment. -/
def sentenceSplitGo : Bool → Bool → JSStr → JSStr → List JSStr
  | _, _, acc, [] => [acc.reverse]
  | _, true, acc, c :: rest =>
    if jsIsSpace c then sentenceSplitGo false true acc rest
    else sentenceSplitGo (isSentencePunct c) false (c :: acc) rest
  | prevPunct, false, acc, c :: rest =>
    if jsIsSpace c ∧ prevPunct then
      acc.reverse :: sentenceSplitGo false true [] rest
    else
      sentenceSplitGo (isSentencePunct c) false (c :: acc) rest

/-- validator.ts `splitSentences`. -/
def splitSentences (value : JSStr) : List JSStr :=
  ((sentenceSplitGo false false [] value).map trim).filter (fun part => part ≠ [])

/-- `Array.prototype.join(" ")`. -/
def joinSp : List JSStr → JSStr
  | [] => []
  | [x] => x
  | x :: xs => x ++ ' ' :: joinSp xs

/-- The JavaScript `\w` class (`\b` boundaries of the year regex). -/
def jsIsWordChar (c : Char) : Bool :=
  ('a' ≤ c ∧ c ≤ 'z') ∨ ('A' ≤ c ∧ c ≤ 'Z') ∨ ('0' ≤ c ∧ c ≤ '9') ∨ c = '_'

/-- A `\b` boundary against an adjacent character (or the string's edge):
the neighbour must not be a word character. -/
def yearBoundary : Option Char → Bool
  | none => true
  | some c => ¬ jsIsWordChar c

/-- The digit pattern `1[0-9]{3}|20[0-9]{2}`. -/
def yearDigits (c1 c2 c3 c4 : Char) : Bool :=
  (c1 = '1' ∧ c2.isDigit ∧ c3.isDigit ∧ c4.isDigit) ∨
    (c1 = '2' ∧ c2 = '0' ∧ c3.isDigit ∧ c4.isDigit)

/-- Scan for matches of `\b(1[0-9]{3}|20[0-9]{2})\b`.  A match needs a
non-word character (or edge) on both sides, so two matches can never be
fewer than five characters apart; scanning one character at a time
therefore finds exactly the regex's global, non-overlapping matches. -/
def scanYears (prev : Option Char) : JSStr → List JSStr
  | [] => []
  | c :: rest =>
    (match rest with
      | c2 :: c3 :: c4 :: tail =>
        if yearBoundary prev ∧ yearDigits c c2 c3 c4 ∧ yearBoundary tail.head? then
          [[c, c2, c3, c4]]
        else []
      | _ => []) ++ scanYears (some c) rest

/-- `Array.from(new Set(...))`: keep the first occurrence of each element. -/
def dedupKeepFirst {α : Type} [DecidableEq α] (seen : List α) : List α → List α
  | [] => []
  | x :: xs => if x ∈ seen then dedupKeepFirst seen xs else x :: dedupKeepFirst (x :: seen) xs

/-- validator.ts `extractYears` (lines 52-55). -/
def extractYears (text : JSStr) : List JSStr :=
  dedupKeepFirst [] (scanYears none text)

/-- The evidence field tags of `EvidenceField` in factcheck/types. -/
inductive EvidenceField where
  | painting | artist | year | museum | style | summary
deriving DecidableEq, Repr

/-- The `EvidenceConfidence` union. -/
inductive EvidenceConfidence where
  | high | medium | low
deriving DecidableEq, Repr

/-- `EvidenceRecord` of factcheck/types. -/
structure EvidenceRecord where
  field : EvidenceField
  value : JSStr
  sourceName : String
  sourceUrl : String
  confidence : EvidenceConfidence
deriving DecidableEq, Repr

/-- `EvidenceSource` of factcheck/types. -/
structure EvidenceSource where
  name : String
  url : String
  tier : String
  latencyMs : Int
  ok : Bool
  recordCount : Nat
deriving DecidableEq, Repr

/-- `EvidenceCoverage` of factcheck/types. -/
structure EvidenceCoverage where
  hasPainting : Bool
  hasArtist : Bool
  hasYear : Bool
  hasMuseum : Bool
  hasStyle : Bool
deriving DecidableEq, Repr

/-- `EvidenceBundle` of factcheck/types. -/
structure EvidenceBundle where
  records : List EvidenceRecord
  sources : List EvidenceSource
  fetchedAt : String
  latencyMs : Int
  coverage : EvidenceCoverage
  coverageScore : Nat
  primaryCoverageScore : Nat
  timedOut : Bool
deriving DecidableEq, Repr

/-- `RecognitionConfidence` of lib/types.ts. -/
inductive RecognitionConfidence where
  | high | medium | low
deriving DecidableEq, Repr

/-- `RecognitionFactCheckStatus` of lib/types.ts; `partialStatus` models the
string value named for a partial verification. -/
inductive RecognitionFactCheckStatus where
  | verified | partialStatus | skipped_timeout | skipped_no_evidence
deriving DecidableEq, Repr

/-- `RecognitionFactCheck` of lib/types.ts. -/
structure RecognitionFactCheck where
  status : RecognitionFactCheckStatus
  verifiedFacts : Nat
  sources : List String
  latencyMs : Int
deriving DecidableEq, Repr

/-- `FactCheckInput` of factcheck/types. -/
structure FactCheckInput where
  painting : JSStr
  artist : JSStr
  year : JSStr
  museum : JSStr
  style : JSStr
  summary : JSStr
  confidence : RecognitionConfidence
deriving DecidableEq, Repr

/-- `FactsDraft` of factcheck/types. -/
structure FactsDraft where
  facts : List JSStr
  summaryAddon : JSStr
deriving DecidableEq, Repr

/-- validator.ts `CanonicalKnowledge` (lines 9-16).  The JavaScript `Set`s
are modelled as lists; only membership, emptiness and existential scans are
read from them, for which insertion order and duplicates are immaterial. -/
structure CanonicalKnowledge where
  painting : List JSStr
  artist : List JSStr
  year : List JSStr
  museum : List JSStr
  style : List JSStr
  evidenceTokens : List JSStr
deriving DecidableEq, Repr

/-- validator.ts `ValidateAndMergeOptions` (lines 18-25). -/
structure ValidateAndMergeOptions where
  base : FactCheckInput
  draft : Option FactsDraft
  evidence : EvidenceBundle
  maxFacts : Nat
  latencyMs : Int
  timedOut : Bool
deriving DecidableEq, Repr

/-- The `diagnostics` part of `ValidateAndMergeResult` (lines 27-35). -/
structure ValidateDiagnostics where
  candidateFacts : List JSStr
  verifiedFacts : List JSStr
  keptSummaryAddonSentences : Nat
  droppedSummaryAddonSentences : Nat
  evidenceCoverageScore : Nat
deriving DecidableEq, Repr

/-- `ValidateAndMergeResult`: `FactCheckResult` plus diagnostics. -/
structure ValidateAndMergeResult where
  facts : List JSStr
  summary : JSStr
  factCheck : RecognitionFactCheck
  diagnostics : ValidateDiagnostics
deriving DecidableEq, Repr

/-- The sentinel string compared against by `addCanonicalValue`. -/
def unknownChars : JSStr := "unknown".toList

/-- validator.ts `addCanonicalValue` (lines 57-61), on the list model of the
`Set`: skip empty and sentinel values, otherwise record the normalization. -/
def addCanonicalValue (set : List JSStr) (value : JSStr) : List JSStr :=
  let normalized := normalize value
  if normalized = [] ∨ normalized = unknownChars then set else set ++ [normalized]

/-- validator.ts `buildKnowledge` (lines 63-92): fold the base attribution,
then every evidence record, into the canonical knowledge sets. -/
def buildKnowledge (base : FactCheckInput) (evidence : EvidenceBundle) : CanonicalKnowledge :=
  let afterBase : CanonicalKnowledge :=
    { painting := addCanonicalValue [] base.painting
      artist := addCanonicalValue [] base.artist
      year := addCanonicalValue [] base.year
      museum := addCanonicalValue [] base.museum
      style := addCanonicalValue [] base.style
      evidenceTokens := [] }
  evidence.records.foldl
    (fun knowledge record =>
      { painting :=
          if record.field = EvidenceField.painting then
            addCanonicalValue knowledge.painting record.value
          else knowledge.painting
        artist :=
          if record.field = EvidenceField.artist then
            addCanonicalValue knowledge.artist record.value
          else knowledge.artist
        year :=
          if record.field = EvidenceField.year then
            addCanonicalValue knowledge.year record.value
          else knowledge.year
        museum :=
          if record.field = EvidenceField.museum then
            addCanonicalValue knowledge.museum record.value
          else knowledge.museum
        style :=
          if record.field = EvidenceField.style then
            addCanonicalValue knowledge.style record.value
          else knowledge.style
        evidenceTokens := knowledge.evidenceTokens ++ tokenize record.value })
    afterBase

/-- `String.prototype.includes`: substring containment as a Boolean. -/
def jsIncludes (hay needle : JSStr) : Bool := decide (List.IsInfix needle hay)

/-- validator.ts `hasYearConflict` (lines 94-104). -/
def hasYearConflict (text : JSStr) (knownYears : List JSStr) : Bool :=
  if knownYears = [] then false
  else
    let yearsInText := extractYears text
    if yearsInText = [] then false
    else yearsInText.any (fun year => ! knownYears.any (fun known => jsIncludes known year))

/-- validator.ts `hasCoreFieldMention` (lines 106-120). -/
def hasCoreFieldMention (text : JSStr) (knowledge : CanonicalKnowledge) : Bool :=
  let normalized := normalize text
  if normalized = [] then false
  else
    [knowledge.painting, knowledge.artist, knowledge.museum, knowledge.style].any
      (fun group => group.any (fun value => 4 ≤ value.length ∧ jsIncludes normalized value))

/-- validator.ts `hasEvidenceTokenSupport` (lines 122-133). -/
def hasEvidenceTokenSupport (text : JSStr) (tokens : List JSStr) : Bool :=
  if tokens = [] then false
  else
    let candidates := tokenize text
    if candidates = [] then false
    else
      let matched := candidates.countP (fun token => token ∈ tokens)
      2 ≤ matched ∨ (1 ≤ matched ∧ candidates.length ≤ 7)

/-- validator.ts `isSupportedText` (lines 135-140). -/
def isSupportedText (text : JSStr) (knowledge : CanonicalKnowledge) : Bool :=
  if trim text = [] then false
  else if hasYearConflict text knowledge.year then false
  else if hasCoreFieldMention text knowledge then true
  else hasEvidenceTokenSupport text knowledge.evidenceTokens

/-- validator.ts `dedupeFacts` (lines 142-152), with the `seen` set as an
explicit accumulator. -/
def dedupeFactsGo (seen : List JSStr) : List JSStr → List JSStr
  | [] => []
  | fact :: rest =>
    let normalized := normalize fact
    if normalized = [] ∨ normalized ∈ seen then dedupeFactsGo seen rest
    else trim fact :: dedupeFactsGo (normalized :: seen) rest

/-- validator.ts `dedupeFacts` entry point. -/
def dedupeFacts (facts : List JSStr) : List JSStr := dedupeFactsGo [] facts

/-- validator.ts `chooseStatus` (lines 154-173). -/
def chooseStatus (evidence : EvidenceBundle) (timedOut : Bool) (verifiedFacts : Nat)
    (keptSummaryAddonSentences : Nat) : RecognitionFactCheckStatus :=
  if evidence.records.length = 0 then
    if timedOut then .skipped_timeout else .skipped_no_evidence
  else if timedOut ∧ verifiedFacts = 0 ∧ keptSummaryAddonSentences = 0 then
    .skipped_timeout
  else if 2 ≤ verifiedFacts ∨ 1 ≤ keptSummaryAddonSentences then
    .verified
  else
    .partialStatus

/-- `draft?.facts || []`. -/
def draftFacts : Option FactsDraft → List JSStr
  | none => []
  | some draft => draft.facts

/-- `draft?.summaryAddon || ""`. -/
def draftSummaryAddon : Option FactsDraft → JSStr
  | none => []
  | some draft => draft.summaryAddon

/-- validator.ts `validateAndMerge` (lines 175-236). -/
def validateAndMerge (o : ValidateAndMergeOptions) : ValidateAndMergeResult :=
  let safeMaxFacts := min (max o.maxFacts 1) 5
  let knowledge := buildKnowledge o.base o.evidence
  let candidateFacts :=
    ((draftFacts o.draft).map trim).filter (fun fact => 12 ≤ fact.length)
  let verifiedFacts :=
    (dedupeFacts (candidateFacts.filter (fun fact => isSupportedText fact knowledge))).take
      safeMaxFacts
  let addonSentences := splitSentences (draftSummaryAddon o.draft)
  let keptAddonSentences :=
    (addonSentences.filter (fun sentence => isSupportedText sentence knowledge)).take 2
  let mergedSummaryParts :=
    if keptAddonSentences = [] then [trim o.base.summary]
    else [trim o.base.summary, joinSp keptAddonSentences]
  let mergedSummary := trim (joinSp (mergedSummaryParts.filter (fun part => part ≠ [])))
  { facts := verifiedFacts
    summary := if mergedSummary = [] then o.base.summary else mergedSummary
    factCheck :=
      { status :=
          chooseStatus o.evidence o.timedOut verifiedFacts.length keptAddonSentences.length
        verifiedFacts := verifiedFacts.length
        sources :=
          dedupKeepFirst []
            ((o.evidence.sources.filter (fun source => source.ok ∧ 0 < source.recordCount)).map
              (fun source => source.name))
        latencyMs := o.latencyMs }
    diagnostics :=
      { candidateFacts := candidateFacts
        verifiedFacts := verifiedFacts
        keptSummaryAddonSentences := keptAddonSentences.length
        droppedSummaryAddonSentences :=
          max (addonSentences.length - keptAddonSentences.length) 0
        evidenceCoverageScore := o.evidence.coverageScore } }

/-- `ProviderOutput` of factcheck/types. -/
structure ProviderOutput where
  source : EvidenceSource
  records : List EvidenceRecord
deriving DecidableEq, Repr

/-- orchestrator.ts lines 88-98: the outcome substituted for a primary
provider exception. -/
def wikimediaFallback : ProviderOutput :=
  { source :=
      { name := "Wikimedia", url := "https://www.wikipedia.org", tier := "primary"
        latencyMs := 0, ok := false, recordCount := 0 }
    records := [] }

/-- orchestrator.ts lines 148-161: outcome substituted for a failing AIC call. -/
def aicFallback : ProviderOutput :=
  { source :=
      { name := "Art Institute of Chicago", url := "", tier := "secondary"
        latencyMs := 0, ok := false, recordCount := 0 }
    records := [] }

/-- orchestrator.ts lines 148-161: outcome substituted for a failing CMA call. -/
def cmaFallback : ProviderOutput :=
  { source :=
      { name := "Cleveland Museum of Art", url := "", tier := "secondary"
        latencyMs := 0, ok := false, recordCount := 0 }
    records := [] }

/-- The `.catch` combinator on a provider call: a thrown exception (modelled
as `Except.error`) is converted into the given fallback outcome. -/
def resolveOutcome (result : Except String ProviderOutput) (fallback : ProviderOutput) :
    ProviderOutput :=
  match result with
  | Except.ok output => output
  | Except.error _ => fallback

/-- orchestrator.ts `computeCoverage` (lines 32-50). -/
def computeCoverage (records : List EvidenceRecord) : EvidenceCoverage × Nat :=
  let coverage : EvidenceCoverage :=
    { hasPainting := records.any (fun r => r.field = EvidenceField.painting)
      hasArtist := records.any (fun r => r.field = EvidenceField.artist)
      hasYear := records.any (fun r => r.field = EvidenceField.year)
      hasMuseum := records.any (fun r => r.field = EvidenceField.museum)
      hasStyle := records.any (fun r => r.field = EvidenceField.style)}
  let score :=
    ([coverage.hasPainting, coverage.hasArtist, coverage.hasYear, coverage.hasMuseum,
        coverage.hasStyle].filter (fun b => b)).length
  (coverage, score)

/-- orchestrator.ts `joinProviderResults` (lines 52-56). -/
def joinProviderResults (results : List ProviderOutput) :
    List EvidenceRecord × List EvidenceSource :=
  ((results.map ProviderOutput.records).flatten, results.map ProviderOutput.source)

/-- The inputs and environment of one `fetchEvidenceBundle` call: its
configuration arguments, the wall-clock readings at its three `Date.now()`
sampling points, and the result (value or thrown exception) of each
provider call it awaits. -/
structure OrchestratorEnv where
  budgetMs : Int
  providerTimeoutMs : Int
  phaseABudgetMs : Int
  responseBufferMs : Int
  startedAt : Int
  nowAfterPhaseA : Int
  nowAtEnd : Int
  fetchedAt : String
  primary : Except String ProviderOutput
  aic : Except String ProviderOutput
  cma : Except String ProviderOutput
deriving Repr

/-- orchestrator.ts line 67: `Math.max(600, budgetMs)`. -/
def globalBudgetMs (env : OrchestratorEnv) : Int := max 600 env.budgetMs

/-- orchestrator.ts line 68. -/
def deadlineAt (env : OrchestratorEnv) : Int := env.startedAt + globalBudgetMs env

/-- orchestrator.ts line 69. -/
def hardStopAt (env : OrchestratorEnv) : Int := deadlineAt env - max 80 env.responseBufferMs

/-- orchestrator.ts line 112: `hardStopAt - Date.now()` after Phase A. -/
def remainingMsAfterA (env : OrchestratorEnv) : Int := hardStopAt env - env.nowAfterPhaseA

/-- orchestrator.ts line 115: Phase B runs only above the 220 ms threshold. -/
def phaseBRuns (env : OrchestratorEnv) : Bool := 220 < remainingMsAfterA env

/-- orchestrator.ts lines 121-124: the per-secondary-provider timeout,
`Math.max(200, Math.min(providerTimeoutMs, Math.floor(remainingMsAfterA * 0.9)))`. -/
def perSecondaryTimeout (env : OrchestratorEnv) : Int :=
  max 200 (min env.providerTimeoutMs ((9 * remainingMsAfterA env) / 10))

/-- The resolved Phase A outcome (orchestrator.ts lines 78-99). -/
def phaseAOutcome (env : OrchestratorEnv) : ProviderOutput :=
  resolveOutcome env.primary wikimediaFallback

/-- The resolved Phase B outcomes (orchestrator.ts lines 113-164): both
secondary providers when Phase B runs, none otherwise. -/
def secondaryOutcomes (env : OrchestratorEnv) : List ProviderOutput :=
  if phaseBRuns env then
    [resolveOutcome env.aic aicFallback, resolveOutcome env.cma cmaFallback]
  else []

/-- orchestrator.ts `fetchEvidenceBundle` (lines 58-206). -/
def fetchEvidenceBundle (env : OrchestratorEnv) : EvidenceBundle :=
  let phaseACombined := joinProviderResults [phaseAOutcome env]
  let phaseACoverage := computeCoverage phaseACombined.1
  let combined := joinProviderResults (phaseAOutcome env :: secondaryOutcomes env)
  let coverage := computeCoverage combined.1
  { records := combined.1
    sources := combined.2
    fetchedAt := env.fetchedAt
    latencyMs := env.nowAtEnd - env.startedAt
    coverage := coverage.1
    coverageScore := coverage.2
    primaryCoverageScore := phaseACoverage.2
    timedOut := deadlineAt env < env.nowAtEnd }

/-- `RecognitionErrorCode` of lib/types.ts. -/
inductive RecognitionErrorCode where
  | bad_request | misconfigured_env | billing | timeout_code | upstream_error
  | non_json_response | network
deriving DecidableEq, Repr

/-- A normalized pipeline error as route.ts builds one (code, HTTP status,
message). -/
structure NormalizedError where
  code : RecognitionErrorCode
  status : Nat
  message : String
deriving DecidableEq, Repr

/-- route.ts line 75: the hard analysis-failure message. -/
def analysisFailureMessage : String :=
  "Could not analyze image reliably. Retake closer and retry."

/-- route.ts lines 814-819: the hard failure returned when the subject is
unresolved after all passes. -/
def unresolvedFailure : NormalizedError :=
  { code := RecognitionErrorCode.upstream_error, status := 502
    message := analysisFailureMessage }

/-- The fact-check operating mode (route.ts line 24). -/
inductive FactCheckMode where
  | off | shadow | enrich
deriving DecidableEq, Repr

/-- `RecognitionCorePayload` of route.ts (lines 93-102). -/
structure RecognitionCorePayload where
  painting : JSStr
  artist : JSStr
  year : JSStr
  museum : JSStr
  style : JSStr
  confidence : RecognitionConfidence
  reasoning : JSStr
  summary : JSStr
deriving DecidableEq, Repr

/-- `RecognitionSuccessPayload` of route.ts (the success response without
its request id). -/
structure RecognitionSuccessPayload where
  painting : JSStr
  artist : JSStr
  year : JSStr
  museum : JSStr
  style : JSStr
  confidence : RecognitionConfidence
  reasoning : JSStr
  summary : JSStr
  facts : List JSStr
  factCheck : RecognitionFactCheck
deriving DecidableEq, Repr

/-- `CachedFactCheckValue` of route.ts (lines 126-130). -/
structure CachedFactCheckValue where
  summary : JSStr
  facts : List JSStr
  factCheck : RecognitionFactCheck
deriving DecidableEq, Repr

/-- route.ts `makeFactCheckMeta` (lines 416-424). -/
def makeFactCheckMeta (status : RecognitionFactCheckStatus) (latencyMs : Int) :
    RecognitionFactCheck :=
  { status := status, verifiedFacts := 0, sources := [], latencyMs := latencyMs }

/-- route.ts `isUnknownValue` (line 426): `value.trim().toLowerCase() === "unknown"`. -/
def isUnknownValue (value : JSStr) : Bool :=
  (trim value).map jsToLower = unknownChars

/-- Which branch of POST's fact-check stage produced the success payload,
together with the data that branch read.  Each constructor corresponds to
one assignment of `successPayload` in route.ts:
`notRun` to lines 833-840 (mode off, low confidence or unknown fields),
`cacheHit` to lines 855-875, `timeoutAfterEvidence` to lines 916-922,
`merged` to lines 1001-1013, and `errored` to lines 1048-1056. -/
inductive FactCheckFlow where
  | notRun (latencyMs : Int)
  | cacheHit (value : CachedFactCheckValue) (latencyMs : Int)
  | timeoutAfterEvidence (latencyMs : Int)
  | merged (result : ValidateAndMergeResult)
  | errored (status : RecognitionFactCheckStatus) (latencyMs : Int)
deriving DecidableEq, Repr

/-- The success payload POST assembles from the accepted recognition-pass
payload and the fact-check stage's branch (route.ts lines 822-1068). -/
def buildSuccessPayload (mode : FactCheckMode) (core : RecognitionCorePayload)
    (flow : FactCheckFlow) : RecognitionSuccessPayload :=
  let base : RecognitionSuccessPayload :=
    { painting := core.painting, artist := core.artist, year := core.year
      museum := core.museum, style := core.style, confidence := core.confidence
      reasoning := core.reasoning, summary := core.summary
      facts := [], factCheck := makeFactCheckMeta .skipped_no_evidence 0 }
  match flow with
  | FactCheckFlow.notRun latencyMs =>
    { base with facts := [], factCheck := makeFactCheckMeta .skipped_no_evidence latencyMs }
  | FactCheckFlow.cacheHit value latencyMs =>
    if mode = FactCheckMode.enrich then
      { base with
        summary := value.summary
        facts := value.facts
        factCheck := { value.factCheck with latencyMs := latencyMs } }
    else
      { base with facts := [], factCheck := { value.factCheck with latencyMs := latencyMs } }
  | FactCheckFlow.timeoutAfterEvidence latencyMs =>
    { base with facts := [], factCheck := makeFactCheckMeta .skipped_timeout latencyMs }
  | FactCheckFlow.merged result =>
    if mode = FactCheckMode.enrich then
      { base with
        summary := result.summary
        facts := result.facts
        factCheck := result.factCheck }
    else
      { base with facts := [], factCheck := result.factCheck }
  | FactCheckFlow.errored status latencyMs =>
    { base with facts := [], factCheck := makeFactCheckMeta status latencyMs }

/-- route.ts line 810: after the primary pass and the optional retry pass,
the pipeline fails hard exactly when both identity fields are unresolved;
otherwise it proceeds to a success response built from the payload
(lines 822-1068). -/
def respondAfterPasses (mode : FactCheckMode) (core : RecognitionCorePayload)
    (flow : FactCheckFlow) : Except NormalizedError RecognitionSuccessPayload :=
  if isUnknownValue core.painting ∧ isUnknownValue core.artist then
    Except.error unresolvedFailure
  else
    Except.ok (buildSuccessPayload mode core flow)

/-- route.ts `normalizeCacheKey` (lines 462-467): characters its regex
keeps (note `|` and the plain space are kept, all other whitespace falls
to the replacement). -/
def allowedCacheKeyChar (c : Char) : Bool :=
  ('a' ≤ c ∧ c ≤ 'z') ∨ ('0' ≤ c ∧ c ≤ '9') ∨ ('а' ≤ c ∧ c ≤ 'я') ∨ c = 'ё' ∨
    c = '|' ∨ c = ' '

/-- route.ts `normalizeCacheKey` (lines 462-467). -/
def normalizeCacheKey (painting artist : JSStr) : JSStr :=
  trim (collapse
    (((painting ++ '|' :: artist).map jsToLower).map
      (fun c => if allowedCacheKeyChar c then c else ' ')))

/-- One entry of the process-wide fact-check cache (route.ts lines 132-143). -/
structure FactCheckCacheEntry where
  expiresAt : Int
  value : CachedFactCheckValue
deriving DecidableEq, Repr

/-- The `Map` backing the cache, as an association list (first match wins,
`set` overwrites in place). -/
def FactCheckCache := List (JSStr × FactCheckCacheEntry)

/-- `Map.prototype.get`. -/
def mapGet (cache : FactCheckCache) (key : JSStr) : Option FactCheckCacheEntry :=
  match cache with
  | [] => none
  | (k, e) :: rest => if k = key then some e else mapGet rest key

/-- `Map.prototype.set`: overwrite the existing entry or append a new one. -/
def mapSet (cache : FactCheckCache) (key : JSStr) (entry : FactCheckCacheEntry) :
    FactCheckCache :=
  match cache with
  | [] => [(key, entry)]
  | (k, e) :: rest =>
    if k = key then (key, entry) :: rest else (k, e) :: mapSet rest key entry

/-- route.ts `getFactCheckCacheValue` (lines 469-477): the value returned
to the caller (the eager deletion of an expired entry only mutates the
map, never the returned value). -/
def getFactCheckCacheValue (cache : FactCheckCache) (key : JSStr) (now : Int) :
    Option CachedFactCheckValue :=
  match mapGet cache key with
  | none => none
  | some hit => if hit.expiresAt ≤ now then none else some hit.value

/-- route.ts `setFactCheckCacheValue` (lines 479-485). -/
def setFactCheckCacheValue (cache : FactCheckCache) (key : JSStr)
    (value : CachedFactCheckValue) (now ttlMs : Int) : FactCheckCache :=
  if key = [] then cache
  else mapSet cache key { expiresAt := now + ttlMs, value := value }

/-- A string is clean when it is nonempty and fixed by `trim`. -/
def CleanStr (l : JSStr) : Prop := trim l = l ∧ l ≠ []

/-- The summary-addition sentences `validateAndMerge` keeps (validator.ts
lines 194-197): supported sentences of the draft addon, capped at two. -/
def keptAddonOf (o : ValidateAndMergeOptions) : List JSStr :=
  ((splitSentences (draftSummaryAddon o.draft)).filter
    (fun sentence => isSupportedText sentence (buildKnowledge o.base o.evidence))).take 2

/-- A recognition payload with both identity fields unresolved. -/
def unresolvedCore : RecognitionCorePayload :=
  { painting := "unknown".toList, artist := "Unknown ".toList
    year := "unknown".toList, museum := "unknown".toList, style := "unknown".toList
    confidence := RecognitionConfidence.low
    reasoning := "r".toList, summary := "s".toList }

/-- A recognition payload with the painting resolved. -/
def resolvedCore : RecognitionCorePayload :=
  { painting := "Mona Lisa".toList, artist := "unknown".toList
    year := "unknown".toList, museum := "unknown".toList, style := "unknown".toList
    confidence := RecognitionConfidence.medium
    reasoning := "r".toList, summary := "s".toList }

/-! ### Concrete sample inputs used by witnesses and counterexamples -/

/-- The spec's worked example: the Starry Night subject attribution. -/
def starryBase : FactCheckInput :=
  { painting := "The Starry Night".toList
    artist := "Vincent van Gogh".toList
    year := "1889".toList
    museum := "Museum of Modern Art".toList
    style := "Post-Impressionism".toList
    summary := "A swirling night sky over a quiet town.".toList
    confidence := RecognitionConfidence.high }

/-- Evidence bundle for the worked example: one primary source that
returned a year record and an artist record. -/
def starryEvidence : EvidenceBundle :=
  { records :=
      [ { field := EvidenceField.year, value := "1889".toList
          sourceName := "Wikimedia", sourceUrl := "", confidence := EvidenceConfidence.high }
      , { field := EvidenceField.artist, value := "Vincent van Gogh".toList
          sourceName := "Wikimedia", sourceUrl := "", confidence := EvidenceConfidence.high } ]
    sources :=
      [ { name := "Wikimedia", url := "", tier := "primary"
          latencyMs := 100, ok := true, recordCount := 2 } ]
    fetchedAt := ""
    latencyMs := 100
    coverage :=
      { hasPainting := false, hasArtist := true, hasYear := true
        hasMuseum := false, hasStyle := false }
    coverageScore := 2
    primaryCoverageScore := 2
    timedOut := false }

/-- Validator call for the worked example, with a draft fact that asserts
the conflicting year 1990. -/
def starryOptions : ValidateAndMergeOptions :=
  { base := starryBase
    draft := some
      { facts := ["Gogh painted the Starry Night villa in 1990".toList]
        summaryAddon := [] }
    evidence := starryEvidence
    maxFacts := 3
    latencyMs := 250
    timedOut := false }

/-- An empty evidence bundle (no provider returned anything). -/
def emptyEvidence : EvidenceBundle :=
  { records := []
    sources := []
    fetchedAt := ""
    latencyMs := 50
    coverage :=
      { hasPainting := false, hasArtist := false, hasYear := false
        hasMuseum := false, hasStyle := false }
    coverageScore := 0
    primaryCoverageScore := 0
    timedOut := false }

/-- A subject with an unresolved year, so the canonical year set is empty. -/
def monaLisaBase : FactCheckInput :=
  { painting := "Mona Lisa".toList
    artist := "Leonardo da Vinci".toList
    year := "unknown".toList
    museum := "unknown".toList
    style := "unknown".toList
    summary := "Base summary.".toList
    confidence := RecognitionConfidence.high }

/-- Validator call with no evidence and a draft fact asserting a year no
known year value contains. -/
def monaLisaOptions : ValidateAndMergeOptions :=
  { base := monaLisaBase
    draft := some
      { facts := ["Mona Lisa was painted in 1990.".toList]
        summaryAddon := [] }
    evidence := emptyEvidence
    maxFacts := 3
    latencyMs := 50
    timedOut := false }

/-- Validator call whose base summary carries a leading space. -/
def paddedSummaryOptions : ValidateAndMergeOptions :=
  { base :=
      { painting := "Mona Lisa".toList
        artist := "Leonardo da Vinci".toList
        year := "unknown".toList
        museum := "unknown".toList
        style := "unknown".toList
        summary := " A.".toList
        confidence := RecognitionConfidence.high }
    draft := none
    evidence := emptyEvidence
    maxFacts := 3
    latencyMs := 50
    timedOut := false }

/-- Orchestrator environment in which every provider call throws. -/
def allFailEnv : OrchestratorEnv :=
  { budgetMs := 1800
    providerTimeoutMs := 800
    phaseABudgetMs := 900
    responseBufferMs := 200
    startedAt := 0
    nowAfterPhaseA := 500
    nowAtEnd := 900
    fetchedAt := ""
    primary := Except.error "wikimedia down"
    aic := Except.error "aic down"
    cma := Except.error "cma down" }

/-- Orchestrator environment in which the remaining time after Phase A is
exactly 221 ms: Phase B runs, but ninety percent of the remaining time is
below the 200 ms clamp. -/
def tightBudgetEnv : OrchestratorEnv :=
  { budgetMs := 600
    providerTimeoutMs := 800
    phaseABudgetMs := 900
    responseBufferMs := 200
    startedAt := 0
    nowAfterPhaseA := 179
    nowAtEnd := 400
    fetchedAt := ""
    primary := Except.ok wikimediaFallback
    aic := Except.ok aicFallback
    cma := Except.ok cmaFallback }

/-- A sample cached verification value. -/
def sampleCachedValue : CachedFactCheckValue :=
  { summary := "Cached summary.".toList
    facts := ["Cached fact number one.".toList]
    factCheck :=
      { status := RecognitionFactCheckStatus.verified
        verifiedFacts := 1
        sources := ["Wikimedia"]
        latencyMs := 123 } }

/-! ### General lemmas about the string primitives -/

theorem dropWhile_dropWhile (p : Char → Bool) (l : JSStr) :
    (l.dropWhile p).dropWhile p = l.dropWhile p := by
  induction l with
  | nil => rfl
  | cons c rest ih =>
    by_cases h : p c
    · simpa [List.dropWhile_cons, h] using ih
    · simp [List.dropWhile_cons, h]

theorem dropWhile_append_of_clean (p : Char → Bool) (l m : JSStr)
    (h : l.dropWhile p = l) (hne : l ≠ []) : (l ++ m).dropWhile p = l ++ m := by
  obtain ⟨c, rest, rfl⟩ := List.exists_cons_of_ne_nil hne
  have hc : ¬ p c = true := by
    intro hc
    have hlen := ((List.dropWhile_suffix p (l := rest)).length_le)
    rw [List.dropWhile_cons_of_pos hc] at h
    simp [h] at hlen
  simp [List.dropWhile_cons, hc]

theorem trimLeft_trimLeft (l : JSStr) : trimLeft (trimLeft l) = trimLeft l :=
  dropWhile_dropWhile jsIsSpace l

theorem trimRight_trimRight (l : JSStr) : trimRight (trimRight l) = trimRight l := by
  simp [trimRight, dropWhile_dropWhile]

theorem trimLeft_suffix (l : JSStr) : trimLeft l <:+ l := List.dropWhile_suffix jsIsSpace

theorem trimRight_prefixOfSelf (l : JSStr) : trimRight l <+: l := by
  have h := List.dropWhile_suffix (l := l.reverse) jsIsSpace
  rw [← List.reverse_prefix] at h
  simpa [trimRight] using h

theorem trimLeft_append_of_clean (l m : JSStr) (h : trimLeft l = l) (hne : l ≠ []) :
    trimLeft (l ++ m) = l ++ m :=
  dropWhile_append_of_clean jsIsSpace l m h hne

theorem trimRight_append_of_clean (l m : JSStr) (h : trimRight m = m) (hne : m ≠ []) :
    trimRight (l ++ m) = l ++ m := by
  have hrev : m.reverse.dropWhile jsIsSpace = m.reverse := by
    have := congrArg List.reverse h
    simpa [trimRight] using this
  have hrevne : m.reverse ≠ [] := by simpa using hne
  have := dropWhile_append_of_clean jsIsSpace m.reverse l.reverse hrev hrevne
  have h2 := congrArg List.reverse this
  simpa [trimRight] using h2

theorem trimLeft_of_prefixLe (l m : JSStr) (h : trimLeft l = l) (hpre : m <+: l) :
    trimLeft m = m := by
  rcases m with _ | ⟨c, rest⟩
  · rfl
  · rcases l with _ | ⟨d, t⟩
    · simp at hpre
    · have hc : c = d := by
        obtain ⟨u, hu⟩ := hpre
        exact (List.cons.injEq _ _ _ _ ▸ hu) |>.1
      have hd : ¬ jsIsSpace d = true := by
        intro hd
        rw [trimLeft, List.dropWhile_cons_of_pos hd] at h
        have hlen := ((List.dropWhile_suffix jsIsSpace (l := t)).length_le)
        simp [h] at hlen
      subst hc
      simp [trimLeft, List.dropWhile_cons, hd]

theorem trim_trim (l : JSStr) : trim (trim l) = trim l := by
  have h1 : trimLeft (trimLeft l) = trimLeft l := trimLeft_trimLeft l
  have h2 : trimLeft (trimRight (trimLeft l)) = trimRight (trimLeft l) :=
    trimLeft_of_prefixLe (trimLeft l) (trimRight (trimLeft l)) h1
      (trimRight_prefixOfSelf (trimLeft l))
  calc trim (trim l) = trimRight (trimLeft (trimRight (trimLeft l))) := rfl
    _ = trimRight (trimRight (trimLeft l)) := by rw [h2]
    _ = trimRight (trimLeft l) := trimRight_trimRight _
    _ = trim l := rfl

theorem trim_eq_self_split (l : JSStr) (h : trim l = l) :
    trimLeft l = l ∧ trimRight l = l := by
  have hlen1 : (trimLeft l).length ≤ l.length := (trimLeft_suffix l).length_le
  have hlen2 : (trimRight (trimLeft l)).length ≤ (trimLeft l).length :=
    (trimRight_prefixOfSelf (trimLeft l)).length_le
  have hlen : l.length ≤ (trimLeft l).length := by
    have : (trim l).length = l.length := by rw [h]
    simpa [trim] using le_trans (le_of_eq this.symm) hlen2
  have hL : trimLeft l = l :=
    (trimLeft_suffix l).eq_of_length (le_antisymm hlen1 hlen)
  refine ⟨hL, ?_⟩
  calc trimRight l = trimRight (trimLeft l) := by rw [hL]
    _ = trim l := rfl
    _ = l := h

theorem trim_append_clean (b a : JSStr) (hb : trim b = b) (hbne : b ≠ [])
    (ha : trim a = a) (hane : a ≠ []) : trim (b ++ ' ' :: a) = b ++ ' ' :: a := by
  obtain ⟨hbL, _⟩ := trim_eq_self_split b hb
  obtain ⟨_, haR⟩ := trim_eq_self_split a ha
  have h1 : trimLeft (b ++ ' ' :: a) = b ++ ' ' :: a :=
    trimLeft_append_of_clean b (' ' :: a) hbL hbne
  have h2 : trimRight (b ++ ' ' :: a) = b ++ ' ' :: a := by
    have : b ++ ' ' :: a = (b ++ [' ']) ++ a := by simp
    rw [this]
    exact trimRight_append_of_clean (b ++ [' ']) a haR hane
  calc trim (b ++ ' ' :: a) = trimRight (trimLeft (b ++ ' ' :: a)) := rfl
    _ = trimRight (b ++ ' ' :: a) := by rw [h1]
    _ = b ++ ' ' :: a := h2

theorem joinSp_clean (l : List JSStr) (hne : l ≠ []) (h : ∀ s ∈ l, CleanStr s) :
    CleanStr (joinSp l) := by
  induction l with
  | nil => exact absurd rfl hne
  | cons x xs ih =>
    rcases xs with _ | ⟨y, ys⟩
    · simpa [joinSp] using h x (by simp)
    · have hx := h x (by simp)
      have hrest : CleanStr (joinSp (y :: ys)) := by
        refine ih (by simp) ?_
        intro s hs
        exact h s (by simp [hs])
      have hxne := hx.2
      have hjoin : joinSp (x :: y :: ys) = x ++ ' ' :: joinSp (y :: ys) := rfl
      constructor
      · rw [hjoin]
        exact trim_append_clean x (joinSp (y :: ys)) hx.1 hx.2 hrest.1 hrest.2
      · rw [hjoin]
        simp [hxne]

theorem mem_splitSentences_clean (v s : JSStr) (h : s ∈ splitSentences v) : CleanStr s := by
  unfold splitSentences at h
  rw [List.mem_filter] at h
  obtain ⟨hmem, hne⟩ := h
  rw [List.mem_map] at hmem
  obtain ⟨c, _, rfl⟩ := hmem
  exact ⟨trim_trim c, by simpa using hne⟩

theorem mem_dedupeFactsGo (seen : List JSStr) (l : List JSStr) (s : JSStr)
    (h : s ∈ dedupeFactsGo seen l) : ∃ c ∈ l, s = trim c := by
  induction l generalizing seen with
  | nil => simp [dedupeFactsGo] at h
  | cons f rest ih =>
    rw [dedupeFactsGo] at h
    by_cases hcond : normalize f = [] ∨ normalize f ∈ seen
    · rw [if_pos hcond] at h
      obtain ⟨c, hc, hs⟩ := ih _ h
      exact ⟨c, by simp [hc], hs⟩
    · rw [if_neg hcond] at h
      rcases List.mem_cons.mp h with h1 | h2
      · exact ⟨f, by simp, h1⟩
      · obtain ⟨c, hc, hs⟩ := ih _ h2
        exact ⟨c, by simp [hc], hs⟩

theorem mem_facts_isSupported (o : ValidateAndMergeOptions) (s : JSStr)
    (h : s ∈ (validateAndMerge o).facts) :
    isSupportedText s (buildKnowledge o.base o.evidence) = true := by
  have hmem : s ∈ dedupeFacts
      ((((draftFacts o.draft).map trim).filter (fun fact => 12 ≤ fact.length)).filter
        (fun fact => isSupportedText fact (buildKnowledge o.base o.evidence))) :=
    List.take_subset _ _ h
  obtain ⟨c, hc, rfl⟩ := mem_dedupeFactsGo [] _ _ hmem
  rw [List.mem_filter] at hc
  obtain ⟨hc1, hc2⟩ := hc
  rw [List.mem_filter] at hc1
  obtain ⟨hc1, _⟩ := hc1
  rw [List.mem_map] at hc1
  obtain ⟨d, _, rfl⟩ := hc1
  rw [trim_trim]
  exact hc2

theorem isSupportedText_no_year_conflict (s : JSStr) (k : CanonicalKnowledge)
    (h : isSupportedText s k = true) : hasYearConflict s k.year = false := by
  unfold isSupportedText at h
  by_cases h1 : trim s = []
  · rw [if_pos h1] at h
    exact absurd h (by simp)
  · rw [if_neg h1] at h
    by_cases h2 : hasYearConflict s k.year = true
    · rw [if_pos h2] at h
      exact absurd h (by simp)
    · simpa using h2

theorem hasYearConflict_false_all_match (s : JSStr) (yrs : List JSStr)
    (hne : yrs ≠ []) (h : hasYearConflict s yrs = false) :
    ∀ y ∈ extractYears s, ∃ k ∈ yrs, jsIncludes k y = true := by
  intro y hy
  unfold hasYearConflict at h
  rw [if_neg hne] at h
  have hnonempty : extractYears s ≠ [] := by
    intro hempty
    rw [hempty] at hy
    simp at hy
  rw [if_neg hnonempty] at h
  rw [List.any_eq_false] at h
  have hthis := h y hy
  simp only [Bool.not_eq_true', Bool.not_eq_false] at hthis
  rw [List.any_eq_true] at hthis
  obtain ⟨k, hk, hinc⟩ := hthis
  exact ⟨k, hk, hinc⟩

theorem trim_nil : trim [] = [] := rfl

theorem joinSp_nil : joinSp [] = [] := rfl

theorem joinSp_single (x : JSStr) : joinSp [x] = x := rfl

theorem keptAddonOf_clean (o : ValidateAndMergeOptions) :
    ∀ s ∈ keptAddonOf o, CleanStr s := by
  intro s hs
  have hmem := List.take_subset 2 _ hs
  rw [List.mem_filter] at hmem
  exact mem_splitSentences_clean _ s hmem.1

/-! ### Lemmas about the cache key and map -/

theorem mem_dropWhile_of_not_space (c : Char) (l : JSStr) (hc : jsIsSpace c = false)
    (h : c ∈ l) : c ∈ l.dropWhile jsIsSpace := by
  induction l with
  | nil => simp at h
  | cons d rest ih =>
    by_cases hd : jsIsSpace d = true
    · rw [List.dropWhile_cons_of_pos hd]
      rcases List.mem_cons.mp h with h1 | h2
      · subst h1
        rw [hd] at hc
        exact absurd hc (by simp)
      · exact ih h2
    · rw [List.dropWhile_cons_of_neg hd]
      exact h

theorem mem_trim_of_not_space (c : Char) (l : JSStr) (hc : jsIsSpace c = false)
    (h : c ∈ l) : c ∈ trim l := by
  have h1 : c ∈ trimLeft l := mem_dropWhile_of_not_space c l hc h
  have h2 : c ∈ (trimLeft l).reverse := List.mem_reverse.mpr h1
  have h3 : c ∈ (trimLeft l).reverse.dropWhile jsIsSpace :=
    mem_dropWhile_of_not_space c _ hc h2
  simpa [trim, trimRight] using h3

theorem mem_collapseGo_of_not_space (c : Char) (b : Bool) (l : JSStr)
    (hc : jsIsSpace c = false) (h : c ∈ l) : c ∈ collapseGo b l := by
  induction l generalizing b with
  | nil => simp at h
  | cons d rest ih =>
    rw [collapseGo]
    by_cases hd : jsIsSpace d = true
    · rw [if_pos hd]
      rcases List.mem_cons.mp h with h1 | h2
      · subst h1
        rw [hd] at hc
        exact absurd hc (by simp)
      · by_cases hb : b <;> simp [hb, ih _ h2]
    · rw [if_neg hd]
      rcases List.mem_cons.mp h with h1 | h2
      · simp [h1]
      · simp [ih _ h2]

theorem normalizeCacheKey_ne_nil (painting artist : JSStr) :
    normalizeCacheKey painting artist ≠ [] := by
  have hbar : ('|' : Char) ∈ painting ++ '|' :: artist := by simp
  have hlow : ('|' : Char) ∈ (painting ++ '|' :: artist).map jsToLower := by
    have heq : jsToLower '|' = '|' := by decide
    have hmem := List.mem_map_of_mem jsToLower hbar
    rwa [heq] at hmem
  have hrepl : ('|' : Char) ∈
      ((painting ++ '|' :: artist).map jsToLower).map
        (fun c => if allowedCacheKeyChar c then c else ' ') := by
    have halt : (fun c => if allowedCacheKeyChar c then c else ' ') '|' = '|' := by decide
    simpa [halt] using
      List.mem_map_of_mem (fun c => if allowedCacheKeyChar c then c else ' ') hlow
  have hsp : jsIsSpace '|' = false := by decide
  have hcoll : ('|' : Char) ∈ collapse
      (((painting ++ '|' :: artist).map jsToLower).map
        (fun c => if allowedCacheKeyChar c then c else ' ')) :=
    mem_collapseGo_of_not_space '|' false _ hsp hrepl
  have htrim := mem_trim_of_not_space '|' _ hsp hcoll
  exact List.ne_nil_of_mem htrim

theorem mapGet_mapSet (cache : FactCheckCache) (key : JSStr) (entry : FactCheckCacheEntry) :
    mapGet (mapSet cache key entry) key = some entry := by
  induction cache with
  | nil => simp [mapSet, mapGet]
  | cons kv rest ih =>
    obtain ⟨k, e⟩ := kv
    rw [mapSet]
    by_cases hk : k = key
    · rw [if_pos hk]
      simp [mapGet]
    · rw [if_neg hk]
      rw [mapGet, if_neg hk]
      exact ih

/-! ### Claim theorems -/

/-- C1 (amended): whenever the canonical known-year set built from the base
attribution and the evidence records is nonempty, a candidate fact whose
text contains a 4-digit year that is a substring of no known year value is
never included in the returned verified facts, however many tokens it
shares with the evidence text. -/
theorem claim_C1_year_conflict_rejection (o : ValidateAndMergeOptions) (s y : JSStr)
    (hy : y ∈ extractYears s)
    (habs : ∀ k ∈ (buildKnowledge o.base o.evidence).year, jsIncludes k y = false)
    (hne : (buildKnowledge o.base o.evidence).year ≠ []) :
    s ∉ (validateAndMerge o).facts := by
  intro hmem
  have hsupp := mem_facts_isSupported o s hmem
  have hconf := isSupportedText_no_year_conflict s _ hsupp
  obtain ⟨k, hk, hinc⟩ :=
    hasYearConflict_false_all_match s _ hne hconf y hy
  have hkfalse := habs k hk
  rw [hkfalse] at hinc
  exact absurd hinc (by simp)

/-- C1 witness: the spec's worked example; the candidate fact mentions the
known painting title but asserts 1990, which no known year contains, and
therefore is rejected. -/
theorem claim_C1_witness :
    ("1990".toList ∈ extractYears "Gogh painted the Starry Night villa in 1990".toList) ∧
    (∀ k ∈ (buildKnowledge starryOptions.base starryOptions.evidence).year,
      jsIncludes k "1990".toList = false) ∧
    (buildKnowledge starryOptions.base starryOptions.evidence).year ≠ [] ∧
    "Gogh painted the Starry Night villa in 1990".toList ∉
      (validateAndMerge starryOptions).facts :=
  ⟨by decide, by decide, by decide,
    claim_C1_year_conflict_rejection starryOptions
      "Gogh painted the Starry Night villa in 1990".toList "1990".toList
      (by decide) (by decide) (by decide)⟩

/-- C1 counterexample to the claim as stated: with the base year
unresolved and no year-field evidence, the canonical year set is empty,
`hasYearConflict` then reports no conflict, and a candidate fact asserting
1990 — a year that is a substring of no known year value — is included in
the verified facts. -/
theorem claim_C1_counterexample :
    ("1990".toList ∈ extractYears "Mona Lisa was painted in 1990.".toList) ∧
    (∀ k ∈ (buildKnowledge monaLisaOptions.base monaLisaOptions.evidence).year,
      jsIncludes k "1990".toList = false) ∧
    "Mona Lisa was painted in 1990.".toList ∈ (validateAndMerge monaLisaOptions).facts :=
  ⟨by decide, by decide, by decide⟩

/-- C2: for every call to `validateAndMerge`, the returned status follows
exactly the claimed derivation: with zero evidence records the status is
`skipped_timeout` when the timed-out flag is set and `skipped_no_evidence`
otherwise; with records present, a set timed-out flag, zero verified facts
and zero kept summary sentences it is `skipped_timeout`; with at least two
verified facts or at least one kept summary sentence it is `verified`;
in all remaining cases it is the partial status. -/
theorem claim_C2_status_derivation (o : ValidateAndMergeOptions) :
    (validateAndMerge o).factCheck.status =
      (if o.evidence.records.length = 0 then
        (if o.timedOut then RecognitionFactCheckStatus.skipped_timeout
        else RecognitionFactCheckStatus.skipped_no_evidence)
      else if o.timedOut ∧ (validateAndMerge o).factCheck.verifiedFacts = 0 ∧
          (validateAndMerge o).diagnostics.keptSummaryAddonSentences = 0 then
        RecognitionFactCheckStatus.skipped_timeout
      else if 2 ≤ (validateAndMerge o).factCheck.verifiedFacts ∨
          1 ≤ (validateAndMerge o).diagnostics.keptSummaryAddonSentences then
        RecognitionFactCheckStatus.verified
      else RecognitionFactCheckStatus.partialStatus) := rfl

set_option maxHeartbeats 2000000 in
/-- C3 (amended): the returned summary is exactly the trimmed base summary
with at most two supported summary-addition sentences appended,
space-joined; when the trimmed base summary is empty and no sentence was
kept, the original base summary is returned verbatim.  The trimmed base
summary is always an unchanged leading segment of the returned summary. -/
theorem claim_C3_summary_append (o : ValidateAndMergeOptions) :
    ((validateAndMerge o).summary =
      (if keptAddonOf o = [] then
        (if trim o.base.summary = [] then o.base.summary else trim o.base.summary)
      else if trim o.base.summary = [] then joinSp (keptAddonOf o)
      else trim o.base.summary ++ ' ' :: joinSp (keptAddonOf o))) ∧
    (validateAndMerge o).diagnostics.keptSummaryAddonSentences = (keptAddonOf o).length ∧
    (keptAddonOf o).length ≤ 2 ∧
    (∃ t, (validateAndMerge o).summary = trim o.base.summary ++ t) := by
  have hdef : (validateAndMerge o).summary =
      (if trim (joinSp ((if keptAddonOf o = [] then [trim o.base.summary]
            else [trim o.base.summary, joinSp (keptAddonOf o)]).filter
            (fun part => part ≠ []))) = [] then o.base.summary
        else trim (joinSp ((if keptAddonOf o = [] then [trim o.base.summary]
            else [trim o.base.summary, joinSp (keptAddonOf o)]).filter
            (fun part => part ≠ [])))) := rfl
  have hlen : (keptAddonOf o).length ≤ 2 := List.length_take_le 2 _
  have hdiag : (validateAndMerge o).diagnostics.keptSummaryAddonSentences =
      (keptAddonOf o).length := rfl
  by_cases hk : keptAddonOf o = []
  · by_cases hb : trim o.base.summary = []
    · rw [if_pos hk, hb] at hdef
      have hfilter : ([([] : JSStr)].filter (fun part => part ≠ [])) = [] := by simp
      rw [hfilter, joinSp_nil, trim_nil] at hdef
      simp only [reduceIte] at hdef
      refine ⟨?_, hdiag, hlen, ?_⟩
      · rw [if_pos hk, if_pos hb]
        exact hdef
      · refine ⟨o.base.summary, ?_⟩
        rw [hb]
        simpa using hdef
    · rw [if_pos hk] at hdef
      have hfilter : ([trim o.base.summary].filter (fun part => part ≠ [])) =
          [trim o.base.summary] := by
        simp [hb]
      rw [hfilter, joinSp_single, trim_trim, if_neg hb] at hdef
      refine ⟨?_, hdiag, hlen, ?_⟩
      · rw [if_pos hk, if_neg hb]
        exact hdef
      · exact ⟨[], by rw [List.append_nil]; exact hdef⟩
  · have hJ : CleanStr (joinSp (keptAddonOf o)) :=
      joinSp_clean _ hk (keptAddonOf_clean o)
    by_cases hb : trim o.base.summary = []
    · rw [if_neg hk, hb] at hdef
      have hfilter : ([([] : JSStr), joinSp (keptAddonOf o)].filter
          (fun part => part ≠ [])) = [joinSp (keptAddonOf o)] := by
        simp [hJ.2]
      rw [hfilter, joinSp_single, hJ.1, if_neg hJ.2] at hdef
      refine ⟨?_, hdiag, hlen, ?_⟩
      · rw [if_neg hk, if_pos hb]
        exact hdef
      · exact ⟨joinSp (keptAddonOf o), by rw [hb]; simpa using hdef⟩
    · rw [if_neg hk] at hdef
      have hfilter : ([trim o.base.summary, joinSp (keptAddonOf o)].filter
          (fun part => part ≠ [])) = [trim o.base.summary, joinSp (keptAddonOf o)] := by
        simp [hb, hJ.2]
      have hjoin : joinSp [trim o.base.summary, joinSp (keptAddonOf o)] =
          trim o.base.summary ++ ' ' :: joinSp (keptAddonOf o) := rfl
      have htr := trim_append_clean (trim o.base.summary) (joinSp (keptAddonOf o))
        (trim_trim o.base.summary) hb hJ.1 hJ.2
      have hne2 : trim o.base.summary ++ ' ' :: joinSp (keptAddonOf o) ≠ [] := by simp
      rw [hfilter, hjoin, htr, if_neg hne2] at hdef
      refine ⟨?_, hdiag, hlen, ?_⟩
      · rw [if_neg hk, if_neg hb]
        exact hdef
      · exact ⟨' ' :: joinSp (keptAddonOf o), hdef⟩

/-- C3 counterexample to the claim as stated: a base summary with a
leading space is not a leading segment of the returned summary, because
`validateAndMerge` trims the base summary before joining. -/
theorem claim_C3_counterexample :
    paddedSummaryOptions.base.summary = ' ' :: 'A' :: '.' :: [] ∧
    (validateAndMerge paddedSummaryOptions).summary = 'A' :: '.' :: [] ∧
    ∀ t : JSStr, paddedSummaryOptions.base.summary ++ t ≠
      (validateAndMerge paddedSummaryOptions).summary := by
  have h1 : paddedSummaryOptions.base.summary = ' ' :: 'A' :: '.' :: [] := by decide
  have h2 : (validateAndMerge paddedSummaryOptions).summary = 'A' :: '.' :: [] := by decide
  refine ⟨h1, h2, ?_⟩
  intro t h
  rw [h1, h2, List.cons_append] at h
  injection h with hhead _
  exact absurd hhead (by decide)

/-- C4: in every operating mode and for every fact-check branch, the
success payload the route assembles keeps the seven core attribution
fields of the accepted recognition-pass result unchanged; only the
summary is possibly replaced and facts attached. -/
theorem claim_C4_core_fields_immutable (mode : FactCheckMode)
    (core : RecognitionCorePayload) (flow : FactCheckFlow) :
    (buildSuccessPayload mode core flow).painting = core.painting ∧
    (buildSuccessPayload mode core flow).artist = core.artist ∧
    (buildSuccessPayload mode core flow).year = core.year ∧
    (buildSuccessPayload mode core flow).museum = core.museum ∧
    (buildSuccessPayload mode core flow).style = core.style ∧
    (buildSuccessPayload mode core flow).confidence = core.confidence ∧
    (buildSuccessPayload mode core flow).reasoning = core.reasoning := by
  cases flow <;> cases mode <;>
    exact ⟨rfl, rfl, rfl, rfl, rfl, rfl, rfl⟩

/-- C5: `fetchEvidenceBundle` never fails because of a knowledge-provider
exception: a thrown primary or secondary provider call is resolved to its
zero-record `ok := false` fallback outcome, and the returned bundle is
still assembled from all resolved outcomes. -/
theorem claim_C5_provider_failure_degrades (env : OrchestratorEnv) :
    (∀ e, env.primary = Except.error e → phaseAOutcome env = wikimediaFallback) ∧
    (∀ e, env.aic = Except.error e → resolveOutcome env.aic aicFallback = aicFallback) ∧
    (∀ e, env.cma = Except.error e → resolveOutcome env.cma cmaFallback = cmaFallback) ∧
    (wikimediaFallback.source.ok = false ∧ wikimediaFallback.source.recordCount = 0 ∧
      wikimediaFallback.records = []) ∧
    (aicFallback.source.ok = false ∧ aicFallback.source.recordCount = 0 ∧
      aicFallback.records = []) ∧
    (cmaFallback.source.ok = false ∧ cmaFallback.source.recordCount = 0 ∧
      cmaFallback.records = []) ∧
    (fetchEvidenceBundle env).sources =
      (phaseAOutcome env :: secondaryOutcomes env).map ProviderOutput.source ∧
    (fetchEvidenceBundle env).records =
      ((phaseAOutcome env :: secondaryOutcomes env).map ProviderOutput.records).flatten := by
  refine ⟨?_, ?_, ?_, ⟨rfl, rfl, rfl⟩, ⟨rfl, rfl, rfl⟩, ⟨rfl, rfl, rfl⟩, rfl, rfl⟩
  · intro e h
    simp [phaseAOutcome, resolveOutcome, h]
  · intro e h
    simp [resolveOutcome, h]
  · intro e h
    simp [resolveOutcome, h]

/-- C5 witness: in the environment where all three provider calls throw,
each outcome is the corresponding fallback. -/
theorem claim_C5_witness :
    phaseAOutcome allFailEnv = wikimediaFallback ∧
    resolveOutcome allFailEnv.aic aicFallback = aicFallback ∧
    resolveOutcome allFailEnv.cma cmaFallback = cmaFallback :=
  ⟨(claim_C5_provider_failure_degrades allFailEnv).1 "wikimedia down" rfl,
    (claim_C5_provider_failure_degrades allFailEnv).2.1 "aic down" rfl,
    (claim_C5_provider_failure_degrades allFailEnv).2.2.1 "cma down" rfl⟩

/-- C6: the pipeline returns the hard unresolved failure exactly when both
the painting and the artist are the sentinel value; when at least one is
resolved, it proceeds to the success response. -/
theorem claim_C6_unresolved_iff (mode : FactCheckMode)
    (core : RecognitionCorePayload) (flow : FactCheckFlow) :
    (respondAfterPasses mode core flow = Except.error unresolvedFailure ↔
      (isUnknownValue core.painting = true ∧ isUnknownValue core.artist = true)) ∧
    (¬ (isUnknownValue core.painting = true ∧ isUnknownValue core.artist = true) →
      respondAfterPasses mode core flow =
        Except.ok (buildSuccessPayload mode core flow)) := by
  constructor
  · constructor
    · intro h
      by_cases hc : isUnknownValue core.painting = true ∧ isUnknownValue core.artist = true
      · exact hc
      · rw [respondAfterPasses, if_neg hc] at h
        exact absurd h (by simp)
    · intro hc
      rw [respondAfterPasses, if_pos hc]
  · intro hc
    rw [respondAfterPasses, if_neg hc]

/-- C6 witness: a doubly-unresolved payload yields the hard failure, a
payload with the painting resolved yields the success response. -/
theorem claim_C6_witness :
    respondAfterPasses FactCheckMode.shadow unresolvedCore (FactCheckFlow.notRun 0) =
      Except.error unresolvedFailure ∧
    respondAfterPasses FactCheckMode.shadow resolvedCore (FactCheckFlow.notRun 0) =
      Except.ok
        (buildSuccessPayload FactCheckMode.shadow resolvedCore (FactCheckFlow.notRun 0)) :=
  ⟨(claim_C6_unresolved_iff FactCheckMode.shadow unresolvedCore
      (FactCheckFlow.notRun 0)).1.mpr ⟨by decide, by decide⟩,
    (claim_C6_unresolved_iff FactCheckMode.shadow resolvedCore
      (FactCheckFlow.notRun 0)).2 (by decide)⟩

/-- C7 (amended): Phase B runs exactly when the remaining time before the
hard stop, measured after Phase A, exceeds 220 ms; when it runs, each
secondary provider's timeout is the minimum of the configured per-provider
timeout and 90 percent (floored) of the remaining time, clamped from below
to 200 ms, and both secondary outcomes join the bundle; when it does not
run, the bundle holds only the Phase A outcome. -/
theorem claim_C7_phaseB_budget_gating (env : OrchestratorEnv) :
    (phaseBRuns env = true ↔ 220 < remainingMsAfterA env) ∧
    (phaseBRuns env = true →
      perSecondaryTimeout env =
        max 200 (min env.providerTimeoutMs ((9 * remainingMsAfterA env) / 10)) ∧
      (fetchEvidenceBundle env).sources =
        [(phaseAOutcome env).source, (resolveOutcome env.aic aicFallback).source,
          (resolveOutcome env.cma cmaFallback).source]) ∧
    (phaseBRuns env = false →
      (fetchEvidenceBundle env).sources = [(phaseAOutcome env).source] ∧
      (fetchEvidenceBundle env).records = (phaseAOutcome env).records) := by
  refine ⟨by simp [phaseBRuns], ?_, ?_⟩
  · intro h
    refine ⟨rfl, ?_⟩
    simp [fetchEvidenceBundle, joinProviderResults, secondaryOutcomes, h]
  · intro h
    constructor
    · simp [fetchEvidenceBundle, joinProviderResults, secondaryOutcomes, h]
    · simp [fetchEvidenceBundle, joinProviderResults, secondaryOutcomes, h]

/-- C7 witness: with 500 ms remaining after Phase A, Phase B runs and the
bundle carries all three provider outcomes; the timeout equals the claimed
clamped formula. -/
theorem claim_C7_witness :
    phaseBRuns allFailEnv = true ∧
    perSecondaryTimeout allFailEnv =
      max 200 (min allFailEnv.providerTimeoutMs ((9 * remainingMsAfterA allFailEnv) / 10)) ∧
    (fetchEvidenceBundle allFailEnv).sources =
      [(phaseAOutcome allFailEnv).source, (resolveOutcome allFailEnv.aic aicFallback).source,
        (resolveOutcome allFailEnv.cma cmaFallback).source] :=
  ⟨by decide,
    ((claim_C7_phaseB_budget_gating allFailEnv).2.1 (by decide)).1,
    ((claim_C7_phaseB_budget_gating allFailEnv).2.1 (by decide)).2⟩

/-- C7 counterexample: with 221 ms remaining after Phase A, Phase B runs,
but the per-secondary timeout is the clamp value 200, not the minimum of
the configured timeout (800) and 90 percent of the remaining time (198):
the claim's unclamped formula is wrong. -/
theorem claim_C7_counterexample :
    phaseBRuns tightBudgetEnv = true ∧
    perSecondaryTimeout tightBudgetEnv = 200 ∧
    min tightBudgetEnv.providerTimeoutMs ((9 * remainingMsAfterA tightBudgetEnv) / 10) = 198 ∧
    perSecondaryTimeout tightBudgetEnv ≠
      min tightBudgetEnv.providerTimeoutMs ((9 * remainingMsAfterA tightBudgetEnv) / 10) :=
  ⟨by decide, by decide, by decide, by decide⟩

/-- C8: storing a verification value under a normalized cache key and
retrieving it under the same key before the TTL has elapsed returns the
identical value; retrieving it once the TTL has elapsed is a miss. -/
theorem claim_C8_cache_roundtrip (cache : FactCheckCache) (painting artist : JSStr)
    (value : CachedFactCheckValue) (now now2 ttlMs : Int) :
    (now2 < now + ttlMs →
      getFactCheckCacheValue
        (setFactCheckCacheValue cache (normalizeCacheKey painting artist) value now ttlMs)
        (normalizeCacheKey painting artist) now2 = some value) ∧
    (now + ttlMs ≤ now2 →
      getFactCheckCacheValue
        (setFactCheckCacheValue cache (normalizeCacheKey painting artist) value now ttlMs)
        (normalizeCacheKey painting artist) now2 = none) := by
  have hkey := normalizeCacheKey_ne_nil painting artist
  have hset : setFactCheckCacheValue cache (normalizeCacheKey painting artist) value now ttlMs =
      mapSet cache (normalizeCacheKey painting artist)
        { expiresAt := now + ttlMs, value := value } := by
    rw [setFactCheckCacheValue, if_neg hkey]
  have hget := mapGet_mapSet cache (normalizeCacheKey painting artist)
    { expiresAt := now + ttlMs, value := value }
  constructor
  · intro hfresh
    rw [hset, getFactCheckCacheValue, hget]
    simp only
    rw [if_neg (by exact not_le.mpr hfresh)]
  · intro hstale
    rw [hset, getFactCheckCacheValue, hget]
    simp only
    rw [if_pos hstale]

/-- C8 witness: a concrete round trip through the cache, read back both
before and after expiry. -/
theorem claim_C8_witness :
    getFactCheckCacheValue
      (setFactCheckCacheValue [] (normalizeCacheKey "Mona Lisa".toList "Leonardo".toList)
        sampleCachedValue 1000 21600000)
      (normalizeCacheKey "Mona Lisa".toList "Leonardo".toList) 1500 = some sampleCachedValue ∧
    getFactCheckCacheValue
      (setFactCheckCacheValue [] (normalizeCacheKey "Mona Lisa".toList "Leonardo".toList)
        sampleCachedValue 1000 21600000)
      (normalizeCacheKey "Mona Lisa".toList "Leonardo".toList) 25000000 = none :=
  ⟨(claim_C8_cache_roundtrip [] "Mona Lisa".toList "Leonardo".toList sampleCachedValue
      1000 1500 21600000).1 (by decide),
    (claim_C8_cache_roundtrip [] "Mona Lisa".toList "Leonardo".toList sampleCachedValue
      1000 25000000 21600000).2 (by decide)⟩

/-- C9: `validateAndMerge` is a pure function of its arguments: two calls
with identical inputs yield identical outputs. -/
theorem claim_C9_pure_function (o₁ o₂ : ValidateAndMergeOptions) (h : o₁ = o₂) :
    validateAndMerge o₁ = validateAndMerge o₂ := by rw [h]

/-- C9 witness: the purity theorem applied at a concrete input. -/
theorem claim_C9_witness :
    monaLisaOptions = monaLisaOptions ∧
    validateAndMerge monaLisaOptions = validateAndMerge monaLisaOptions :=
  ⟨rfl, claim_C9_pure_function monaLisaOptions monaLisaOptions rfl⟩

/-- C10: there is an input with an empty evidence record list whose result
carries a nonempty verified-facts list while its status is
`skipped_no_evidence`: the support predicate is satisfied by the base
attribution's own painting value, while the status derivation looks only
at the evidence record count. -/
theorem claim_C10_verified_without_evidence :
    monaLisaOptions.evidence.records = [] ∧
    (validateAndMerge monaLisaOptions).facts ≠ [] ∧
    0 < (validateAndMerge monaLisaOptions).factCheck.verifiedFacts ∧
    (validateAndMerge monaLisaOptions).factCheck.status =
      RecognitionFactCheckStatus.skipped_no_evidence :=
  ⟨rfl, by decide, by decide, by decide⟩

end Hearitage
